import Mathlib

/-!
Shallow embedding of the weathr terminal weather-scene program:
the app-state weather snapshot logic (src/app_state.rs), the airplane
particle subsystem (src/animation/airplanes.rs) and the static scene
layout and ground texture (src/scene/mod.rs, src/scene/ground.rs,
src/scene/house.rs).  Rust f32 values are embedded as rationals,
unsigned machine integers as Nat (with explicit wrap-around where the
source wraps), and random draws are passed as explicit oracle inputs.
A Rust operation that can terminate the process abnormally (integer
remainder by zero) is embedded as an Option-valued function returning
none at the abnormal input.
-/

/-- Modelled from the spec: the weather condition enumeration lives in the
crate's weather module, which is not part of the rendering core sources;
its fourteen variants are those matched in AppState::get_condition_text. -/
inductive WeatherCondition where
  | Clear | Cloudy | PartlyCloudy | Overcast | Fog | Drizzle
  | FreezingRain | Rain | Snow | SnowGrains | RainShowers | SnowShowers
  | Thunderstorm | ThunderstormHail
deriving DecidableEq

/-- Modelled from the spec: WeatherData is declared in the crate's weather
module, outside the rendering core sources.  The core only reads its
condition, the boolean results of the condition predicate methods
(is_raining, is_snowing, is_thunderstorm, is_cloudy), the day flag and the
temperature, so those predicate results are carried as fields here and the
f32 temperature is embedded as a rational. -/
structure WeatherData where
  condition : WeatherCondition
  conditionIsRaining : Bool
  conditionIsSnowing : Bool
  conditionIsThunderstorm : Bool
  conditionIsCloudy : Bool
  is_day : Bool
  temperature : ℚ
deriving DecidableEq

/-- Modelled from the spec: location value from the excluded geolocation
collaborator; the core only stores and formats it. -/
structure WeatherLocation where
  latitude : ℚ
  longitude : ℚ
deriving DecidableEq

/-- WeatherConditions, src/app_state.rs lines 14-20. -/
structure WeatherConditions where
  is_raining : Bool
  is_snowing : Bool
  is_thunderstorm : Bool
  is_cloudy : Bool
  is_day : Bool
deriving DecidableEq

/-- LoadingState, src/app_state.rs lines 22-26; the Instant field is wall
clock time, irrelevant to the claims, so only the frame counter is kept. -/
structure LoadingState where
  frame : Nat
deriving DecidableEq

/-- AppState, src/app_state.rs lines 4-12. -/
structure AppState where
  current_weather : Option WeatherData
  weather_error : Option String
  weather_conditions : WeatherConditions
  loading_state : LoadingState
  cached_weather_info : String
  weather_info_needs_update : Bool
  location : WeatherLocation
deriving DecidableEq

/-- WeatherConditions::default, src/app_state.rs lines 157-165. -/
def WeatherConditions.default : WeatherConditions :=
  { is_raining := false
    is_snowing := false
    is_thunderstorm := false
    is_cloudy := false
    is_day := true }

/-- AppState::new, src/app_state.rs lines 29-39. -/
def AppState.new (location : WeatherLocation) : AppState :=
  { current_weather := none
    weather_error := none
    weather_conditions := WeatherConditions.default
    loading_state := { frame := 0 }
    cached_weather_info := ""
    weather_info_needs_update := true
    location := location }

/-- AppState::update_weather, src/app_state.rs lines 41-52.  The
is_thunderstorm field is written first and the is_raining assignment reads
it back, exactly as the source does. -/
def AppState.update_weather (s : AppState) (weather : WeatherData) : AppState :=
  let is_thunderstorm := weather.conditionIsThunderstorm
  { s with
    weather_conditions :=
      { is_thunderstorm := is_thunderstorm
        is_snowing := weather.conditionIsSnowing
        is_raining := weather.conditionIsRaining && !is_thunderstorm
        is_cloudy := weather.conditionIsCloudy
        is_day := weather.is_day }
    current_weather := some weather
    weather_error := none
    weather_info_needs_update := true }

/-- AppState::set_weather_error, src/app_state.rs lines 54-57. -/
def AppState.set_weather_error (s : AppState) (error : String) : AppState :=
  { s with
    weather_error := some error
    weather_info_needs_update := true }

/-- AppState::should_show_fireflies, src/app_state.rs lines 134-153. -/
def AppState.should_show_fireflies (s : AppState) : Bool :=
  if s.weather_conditions.is_day then false
  else
    match s.current_weather with
    | some weather =>
        let is_warm := decide (weather.temperature > 15)
        let is_clear_night :=
          match weather.condition with
          | WeatherCondition.Clear => true
          | WeatherCondition.PartlyCloudy => true
          | _ => false
        is_warm && is_clear_night
          && !s.weather_conditions.is_raining
          && !s.weather_conditions.is_thunderstorm
          && !s.weather_conditions.is_snowing
    | none => false

/-- Airplane, src/animation/airplanes.rs lines 5-11; f32 coordinates and
speed embedded as rationals. -/
structure Airplane where
  x : ℚ
  y : ℚ
  speed : ℚ
  trail_positions : List ℚ
deriving DecidableEq

/-- AirplaneSystem, src/animation/airplanes.rs lines 13-18. -/
structure AirplaneSystem where
  planes : List Airplane
  terminal_width : Nat
  terminal_height : Nat
  spawn_cooldown : Nat
deriving DecidableEq

/-- AirplaneSystem::new, src/animation/airplanes.rs lines 21-28. -/
def AirplaneSystem.new (terminal_width terminal_height : Nat) : AirplaneSystem :=
  { planes := []
    terminal_width := terminal_width
    terminal_height := terminal_height
    spawn_cooldown := 0 }

/-- The per-plane movement and trail body of AirplaneSystem::update,
src/animation/airplanes.rs lines 34-41: advance x by speed, push the new x
at the front of the trail, drop history past 8 entries. -/
def planeStep (p : Airplane) : Airplane :=
  let x := p.x + p.speed
  let trail := x :: p.trail_positions
  let trail := if trail.length > 8 then trail.take 8 else trail
  { p with x := x, trail_positions := trail }

/-- AirplaneSystem::spawn_plane, src/animation/airplanes.rs lines 52-62,
given the two random draws it consumes (a u16 and an f32 in [0,1)).  The
source computes rand % (terminal_height / 4); when terminal_height / 4 is
zero the remainder-by-zero aborts the process, embedded here as none. -/
def AirplaneSystem.spawn_plane (s : AirplaneSystem) (ruY : Nat) (rf2 : ℚ) :
    Option AirplaneSystem :=
  if s.terminal_height / 4 = 0 then none
  else
    let y : ℚ := (ruY % (s.terminal_height / 4) : Nat)
    let speed : ℚ := 3/10 + rf2 * (2/10)
    some { s with
           planes := s.planes ++
             [{ x := 0, y := y, speed := speed, trail_positions := [] }] }

/-- AirplaneSystem::update, src/animation/airplanes.rs lines 30-50.  The
random draws are explicit: rf1 is the f32 spawn roll, ruY and rf2 the draws
consumed by spawn_plane, ruCd the u16 draw used to reset the cooldown.
Nat subtraction is Rust's saturating_sub. -/
def AirplaneSystem.update (s : AirplaneSystem)
    (terminal_width terminal_height : Nat)
    (rf1 : ℚ) (ruY ruCd : Nat) (rf2 : ℚ) : Option AirplaneSystem :=
  let s := { s with
             terminal_width := terminal_width
             terminal_height := terminal_height }
  let s := { s with planes := (s.planes.map planeStep).filter
                      (fun p => decide (p.x < (terminal_width : ℚ))) }
  let s := { s with spawn_cooldown := s.spawn_cooldown - 1 }
  if s.spawn_cooldown = 0 ∧ rf1 < 3/1000 then
    match s.spawn_plane ruY rf2 with
    | none => none
    | some s => some { s with spawn_cooldown := 400 + ruCd % 200 }
  else
    some s

/-- One update call's inputs: the bounds and the four random draws. -/
structure UpdateInput where
  w : Nat
  h : Nat
  rf1 : ℚ
  ruY : Nat
  ruCd : Nat
  rf2 : ℚ
deriving DecidableEq

/-- A sequence of AirplaneSystem::update calls; none once any call aborts. -/
def runUpdates (s : AirplaneSystem) : List UpdateInput → Option AirplaneSystem
  | [] => some s
  | i :: rest =>
      match s.update i.w i.h i.rf1 i.ruY i.ruCd i.rf2 with
      | none => none
      | some s => runUpdates s rest

/-- Terminal colors used by the scene, from crossterm's Color plus the Rgb
constructor; only the variants the embedded code mentions. -/
inductive GColor where
  | white | grey | darkGrey | green | darkGreen
  | magenta | red | cyan | yellow
  | rgb (r g b : Nat)
deriving DecidableEq

/-- grass_colors, src/scene/ground.rs line 21. -/
def grass_colors : List GColor := [GColor.green, GColor.darkGreen]

/-- flower_colors, src/scene/ground.rs line 22. -/
def flower_colors : List GColor :=
  [GColor.magenta, GColor.red, GColor.cyan, GColor.yellow]

/-- soil_color, src/scene/ground.rs lines 23-27. -/
def soil_color : GColor := GColor.rgb 101 67 33

/-- path_color, src/scene/ground.rs lines 28-32. -/
def path_color : GColor := GColor.rgb 180 160 120

/-- pseudo_rand, src/scene/ground.rs lines 35-37: the usize coordinates are
truncated to u32, xored with fixed constants, multiplied with u32
wrap-around, and reduced mod 100. -/
def pseudo_rand (x y : Nat) : Nat :=
  ((x % 4294967296) ^^^ 0x5DEECE6) * ((y % 4294967296) ^^^ 0xB)
    % 4294967296 % 100

/-- path_start for row y, src/scene/ground.rs lines 40-41: path_width is
4 + y and the start saturates at zero. -/
def pathStart (path_center y : Nat) : Nat := path_center - (4 + y) / 2

/-- path_end for row y, src/scene/ground.rs lines 40-42. -/
def pathEnd (path_center y : Nat) : Nat := path_center + (4 + y) / 2

/-- is_path for cell (x, y), src/scene/ground.rs line 45. -/
def isPath (path_center x y : Nat) : Bool :=
  decide (pathStart path_center y ≤ x) && decide (x ≤ pathEnd path_center y)

/-- The character and color Ground::render computes for cell (x, y),
src/scene/ground.rs lines 44-81. -/
def groundCell (path_center x y : Nat) : Char × GColor :=
  if y = 0 then
    if isPath path_center x y then ('=', path_color)
    else
      let r := pseudo_rand x y
      if r < 5 then
        ('*', flower_colors.getD ((x + y) % flower_colors.length)
                GColor.magenta)
      else if r < 15 then (',', grass_colors.getD 1 GColor.darkGreen)
      else ('^', grass_colors.getD 0 GColor.green)
  else
    if isPath path_center x y then ('=', path_color)
    else
      let r := pseudo_rand x y
      let ch := if r < 20 then '~' else if r < 25 then '.' else ' '
      (ch, soil_color)

/-- The trace of render_char calls made by Ground::render,
src/scene/ground.rs lines 39-85: rows 0..height, columns 0..width, each
cell drawn at screen position (x, y_start + y). -/
def Ground.renderOps (width height y_start path_center : Nat) :
    List ((Nat × Nat) × Char × GColor) :=
  (List.range height).flatMap fun y =>
    (List.range width).map fun x =>
      ((x, y_start + y), groundCell path_center x y)

/-- Number of path cells Ground::render draws in row y of a width-wide
ground strip. -/
def pathCellCount (path_center width y : Nat) : Nat :=
  ((Finset.range width).filter (fun x => isPath path_center x y = true)).card

/-- WorldScene::GROUND_HEIGHT, src/scene/mod.rs line 17. -/
def GROUND_HEIGHT : Nat := 8

/-- House::WIDTH, src/scene/house.rs line 20. -/
def House.WIDTH : Nat := 64

/-- House::HEIGHT, src/scene/house.rs line 21. -/
def House.HEIGHT : Nat := 13

/-- House::DOOR_OFFSET, src/scene/house.rs line 22. -/
def House.DOOR_OFFSET : Nat := 18

/-- The layout WorldScene::render derives from the terminal size,
src/scene/mod.rs lines 38-49: (horizon_y, house_x, house_y, path_center),
with Nat subtraction standing for saturating_sub. -/
def sceneLayout (width height : Nat) : Nat × Nat × Nat × Nat :=
  let horizon_y := height - GROUND_HEIGHT
  let house_x := width / 2 - House.WIDTH / 2
  let house_y := horizon_y - House.HEIGHT
  let path_center := house_x + House.DOOR_OFFSET
  (horizon_y, house_x, house_y, path_center)

/-- C1: a weather value whose condition is both a thunderstorm and raining
yields, after AppState::update_weather, a derived snapshot with
is_raining = false and is_thunderstorm = true. -/
theorem update_weather_thunderstorm_suppresses_rain
    (s : AppState) (weather : WeatherData)
    (hts : weather.conditionIsThunderstorm = true)
    (hr : weather.conditionIsRaining = true) :
    (s.update_weather weather).weather_conditions.is_raining = false ∧
    (s.update_weather weather).weather_conditions.is_thunderstorm = true := by
  simp [AppState.update_weather, hts, hr]

/-- C1 witness: a concrete thunderstorm-and-rain weather value. -/
theorem update_weather_thunderstorm_suppresses_rain_witness :
    ((AppState.new ⟨0, 0⟩).update_weather
        ⟨WeatherCondition.Thunderstorm, true, false, true, true, false, 20⟩
      ).weather_conditions.is_raining = false ∧
    ((AppState.new ⟨0, 0⟩).update_weather
        ⟨WeatherCondition.Thunderstorm, true, false, true, true, false, 20⟩
      ).weather_conditions.is_thunderstorm = true :=
  update_weather_thunderstorm_suppresses_rain (AppState.new ⟨0, 0⟩)
    ⟨WeatherCondition.Thunderstorm, true, false, true, true, false, 20⟩
    rfl rfl

/-- C8: should_show_fireflies is false on any day snapshot and before the
first weather value, and is true exactly when it is night, the temperature
exceeds 15, the condition is Clear or PartlyCloudy, and none of the derived
rain, thunderstorm and snow flags hold. -/
theorem should_show_fireflies_spec (s : AppState) :
    (s.weather_conditions.is_day = true → s.should_show_fireflies = false) ∧
    (s.current_weather = none → s.should_show_fireflies = false) ∧
    (s.should_show_fireflies = true ↔
      s.weather_conditions.is_day = false ∧
      ∃ w, s.current_weather = some w ∧ 15 < w.temperature ∧
        (w.condition = WeatherCondition.Clear ∨
         w.condition = WeatherCondition.PartlyCloudy) ∧
        s.weather_conditions.is_raining = false ∧
        s.weather_conditions.is_thunderstorm = false ∧
        s.weather_conditions.is_snowing = false) := by
  obtain ⟨cw, we, ⟨ir, isn, its, ic, idd⟩, ls, ci, niu, loc⟩ := s
  rcases cw with _ | ⟨cond, cir, cis, cit, cic, wday, temp⟩
  · cases idd <;> simp [AppState.should_show_fireflies]
  · cases idd <;> cases cond <;>
      simp [AppState.should_show_fireflies] <;> tauto

/-- C8 witness: a concrete clear warm night state shows fireflies. -/
theorem should_show_fireflies_spec_witness :
    ({ current_weather :=
         some ⟨WeatherCondition.Clear, false, false, false, false, false, 20⟩
       weather_error := none
       weather_conditions := ⟨false, false, false, false, false⟩
       loading_state := ⟨0⟩
       cached_weather_info := ""
       weather_info_needs_update := false
       location := ⟨0, 0⟩ } : AppState).should_show_fireflies = true :=
  (should_show_fireflies_spec _).2.2.mpr
    ⟨rfl, ⟨WeatherCondition.Clear, false, false, false, false, false, 20⟩,
      rfl, by norm_num, Or.inl rfl, rfl, rfl, rfl⟩

/-- C9: a fresh AppState has no weather value and the default snapshot
(day, no precipitation), and set_weather_error changes only the error
string and the needs-update flag. -/
theorem stale_weather_never_error
    (loc : WeatherLocation) (s : AppState) (e : String) :
    (AppState.new loc).current_weather = none ∧
    (AppState.new loc).weather_conditions.is_day = true ∧
    (AppState.new loc).weather_conditions.is_raining = false ∧
    (AppState.new loc).weather_conditions.is_snowing = false ∧
    (AppState.new loc).weather_conditions.is_thunderstorm = false ∧
    (AppState.new loc).weather_conditions.is_cloudy = false ∧
    (s.set_weather_error e).weather_conditions = s.weather_conditions ∧
    (s.set_weather_error e).current_weather = s.current_weather ∧
    (s.set_weather_error e).loading_state = s.loading_state ∧
    (s.set_weather_error e).cached_weather_info = s.cached_weather_info ∧
    (s.set_weather_error e).location = s.location ∧
    (s.set_weather_error e).weather_error = some e ∧
    (s.set_weather_error e).weather_info_needs_update = true := by
  simp [AppState.new, AppState.set_weather_error, WeatherConditions.default]

/-- C6: on an 80-by-24 terminal the scene layout is horizon row 16
(height minus the ground strip), house_x 8 (so the 64-wide house is
centered on column 40), house_y 3 (base resting on the horizon), and path
center 26 = house_x + DOOR_OFFSET. -/
theorem scene_layout_80x24 :
    sceneLayout 80 24 = (16, 8, 3, 26) ∧
    16 = 24 - GROUND_HEIGHT ∧
    8 = 80 / 2 - House.WIDTH / 2 ∧
    8 + House.WIDTH / 2 = 40 ∧
    3 + House.HEIGHT = 16 ∧
    26 = 8 + House.DOOR_OFFSET := by decide

lemma planeStep_trail_le (p : Airplane) :
    (planeStep p).trail_positions.length ≤ 8 := by
  unfold planeStep
  simp only [Airplane.mk.injEq]
  split
  · simp
  · omega

lemma update_some_planes (s : AirplaneSystem)
    (w h : Nat) (rf1 : ℚ) (ruY ruCd : Nat) (rf2 : ℚ) (s' : AirplaneSystem)
    (hu : s.update w h rf1 ruY ruCd rf2 = some s') :
    s'.planes = (s.planes.map planeStep).filter
        (fun p => decide (p.x < (w : ℚ))) ∨
    ∃ y speed, s'.planes =
      ((s.planes.map planeStep).filter (fun p => decide (p.x < (w : ℚ)))) ++
        [{ x := 0, y := y, speed := speed, trail_positions := [] }] := by
  simp only [AirplaneSystem.update, AirplaneSystem.spawn_plane] at hu
  split at hu
  · split at hu
    · exact absurd hu (by simp)
    · rename_i s2 heq
      split at heq
      · cases heq
      · cases heq
        cases hu
        right
        exact ⟨_, _, rfl⟩
  · cases hu
    left
    rfl

lemma update_trail_le (s : AirplaneSystem)
    (w h : Nat) (rf1 : ℚ) (ruY ruCd : Nat) (rf2 : ℚ) (s' : AirplaneSystem)
    (hu : s.update w h rf1 ruY ruCd rf2 = some s') :
    ∀ p ∈ s'.planes, p.trail_positions.length ≤ 8 := by
  rcases update_some_planes s w h rf1 ruY ruCd rf2 s' hu with
      hpl | ⟨y, speed, hpl⟩ <;> intro p hp <;> rw [hpl] at hp
  · obtain ⟨q, _, rfl⟩ := List.mem_map.mp (List.mem_filter.mp hp).1
    exact planeStep_trail_le q
  · rcases List.mem_append.mp hp with hp | hp
    · obtain ⟨q, _, rfl⟩ := List.mem_map.mp (List.mem_filter.mp hp).1
      exact planeStep_trail_le q
    · simp at hp
      subst hp
      simp

lemma runUpdates_trail_aux (inputs : List UpdateInput) :
    ∀ s s' : AirplaneSystem,
      (∀ p ∈ s.planes, p.trail_positions.length ≤ 8) →
      runUpdates s inputs = some s' →
      ∀ p ∈ s'.planes, p.trail_positions.length ≤ 8 := by
  induction inputs with
  | nil =>
      intro s s' h hr
      simp only [runUpdates, Option.some.injEq] at hr
      exact hr ▸ h
  | cons i rest ih =>
      intro s s' h hr
      simp only [runUpdates] at hr
      rcases hm : s.update i.w i.h i.rf1 i.ruY i.ruCd i.rf2 with _ | s1
      · rw [hm] at hr
        cases hr
      · rw [hm] at hr
        exact ih s1 s' (update_trail_le s i.w i.h i.rf1 i.ruY i.ruCd i.rf2 s1 hm) hr

/-- C3: starting from a fresh AirplaneSystem, after any sequence of update
calls every stored airplane's trail history has length at most 8. -/
theorem airplane_trail_capacity (w h : Nat) (inputs : List UpdateInput)
    (s' : AirplaneSystem)
    (hrun : runUpdates (AirplaneSystem.new w h) inputs = some s') :
    ∀ p ∈ s'.planes, p.trail_positions.length ≤ 8 :=
  runUpdates_trail_aux inputs (AirplaneSystem.new w h) s' (by simp [AirplaneSystem.new]) hrun

/-- C3 witness: one concrete update that spawns a plane. -/
theorem airplane_trail_capacity_witness :
    runUpdates (AirplaneSystem.new 80 24) [⟨80, 24, 0, 5, 0, 0⟩] =
      some ⟨[⟨0, 5, 3/10, []⟩], 80, 24, 400⟩ ∧
    (⟨0, 5, 3/10, []⟩ : Airplane).trail_positions.length ≤ 8 := by
  have hrun : runUpdates (AirplaneSystem.new 80 24) [⟨80, 24, 0, 5, 0, 0⟩] =
      some ⟨[⟨0, 5, 3/10, []⟩], 80, 24, 400⟩ := by
    norm_num [runUpdates, AirplaneSystem.update, AirplaneSystem.spawn_plane,
      AirplaneSystem.new]
  exact ⟨hrun, airplane_trail_capacity 80 24 [⟨80, 24, 0, 5, 0, 0⟩] _ hrun
    ⟨0, 5, 3/10, []⟩ (by simp)⟩

/-- C2 counterexample: spawn a plane at y = 5 under a 24-row terminal, then
shrink to 4 rows; the plane survives the update with y = 5 outside the new
height, so positions are not confined to the most recent bounds. -/
theorem airplane_bounds_counterexample :
    runUpdates (AirplaneSystem.new 80 24)
        [⟨80, 24, 0, 5, 0, 0⟩, ⟨80, 4, 1, 0, 0, 0⟩] =
      some ⟨[⟨3/10, 5, 3/10, [3/10]⟩], 80, 4, 399⟩ ∧
    ∃ p ∈ (⟨[⟨3/10, 5, 3/10, [3/10]⟩], 80, 4, 399⟩ : AirplaneSystem).planes,
      ¬ p.y < (4 : ℚ) := by
  constructor
  · norm_num [runUpdates, AirplaneSystem.update, AirplaneSystem.spawn_plane,
      AirplaneSystem.new, planeStep]
  · exact ⟨⟨3/10, 5, 3/10, [3/10]⟩, by simp, by norm_num⟩

/-- C2 (amended): after an update with width at least 1 that returns, every
surviving airplane's x lies strictly below that width; the y coordinate is
never re-checked against the height. -/
theorem airplane_update_x_bound (s : AirplaneSystem)
    (w h : Nat) (rf1 : ℚ) (ruY ruCd : Nat) (rf2 : ℚ) (s' : AirplaneSystem)
    (hw : 1 ≤ w)
    (hu : s.update w h rf1 ruY ruCd rf2 = some s') :
    ∀ p ∈ s'.planes, p.x < (w : ℚ) := by
  have hw' : (1 : ℚ) ≤ (w : ℚ) := by exact_mod_cast hw
  rcases update_some_planes s w h rf1 ruY ruCd rf2 s' hu with
      hpl | ⟨y, speed, hpl⟩ <;> intro p hp <;> rw [hpl] at hp
  · exact of_decide_eq_true (List.mem_filter.mp hp).2
  · rcases List.mem_append.mp hp with hp | hp
    · exact of_decide_eq_true (List.mem_filter.mp hp).2
    · simp at hp
      subst hp
      show (0 : ℚ) < (w : ℚ)
      linarith

/-- C2 witness: the x bound at a concrete spawning update. -/
theorem airplane_update_x_bound_witness :
    (⟨0, 5, 3/10, []⟩ : Airplane).x < ((80 : Nat) : ℚ) :=
  airplane_update_x_bound (AirplaneSystem.new 80 24) 80 24 0 5 0 0
    ⟨[⟨0, 5, 3/10, []⟩], 80, 24, 400⟩ (by norm_num)
    (by norm_num [AirplaneSystem.update, AirplaneSystem.spawn_plane,
      AirplaneSystem.new])
    ⟨0, 5, 3/10, []⟩ (by simp)

/-- C7: with the cooldown at zero and the spawn roll below 0.003, update
appends exactly one new plane at x = 0 with y drawn in the upper quarter,
speed in [0.3, 0.5), and resets the cooldown into [400, 599]. -/
theorem airplane_spawn_one (s : AirplaneSystem)
    (w h : Nat) (rf1 : ℚ) (ruY ruCd : Nat) (rf2 : ℚ)
    (hcd : s.spawn_cooldown = 0) (hr : rf1 < 3/1000) (hh : 4 ≤ h)
    (h0 : 0 ≤ rf2) (h1 : rf2 < 1) :
    s.update w h rf1 ruY ruCd rf2 = some
      { planes := ((s.planes.map planeStep).filter
            (fun p => decide (p.x < (w : ℚ)))) ++
          [{ x := 0, y := ((ruY % (h / 4) : Nat) : ℚ),
             speed := 3/10 + rf2 * (2/10), trail_positions := [] }]
        terminal_width := w
        terminal_height := h
        spawn_cooldown := 400 + ruCd % 200 } ∧
    ((0 : ℚ) ≤ ((ruY % (h / 4) : Nat) : ℚ) ∧
      ((ruY % (h / 4) : Nat) : ℚ) < ((h / 4 : Nat) : ℚ)) ∧
    ((3/10 : ℚ) ≤ 3/10 + rf2 * (2/10) ∧ (3/10 : ℚ) + rf2 * (2/10) < 1/2) ∧
    (400 ≤ 400 + ruCd % 200 ∧ 400 + ruCd % 200 ≤ 599) := by
  have hdiv : ¬ h / 4 = 0 := by omega
  refine ⟨?_, ⟨?_, ?_⟩, ⟨?_, ?_⟩, ?_, ?_⟩
  · simp [AirplaneSystem.update, AirplaneSystem.spawn_plane, hcd, hdiv, hr]
  · positivity
  · exact_mod_cast Nat.mod_lt _ (Nat.pos_of_ne_zero hdiv)
  · nlinarith
  · nlinarith
  · omega
  · omega

/-- C7 witness: a concrete spawning update on an 80 by 24 terminal. -/
theorem airplane_spawn_one_witness :
    (AirplaneSystem.new 80 24).update 80 24 0 5 0 0 = some
      { planes := (((AirplaneSystem.new 80 24).planes.map planeStep).filter
            (fun p => decide (p.x < ((80 : Nat) : ℚ)))) ++
          [{ x := 0, y := ((5 % (24 / 4 : Nat) : Nat) : ℚ),
             speed := 3/10 + 0 * (2/10), trail_positions := [] }]
        terminal_width := 80
        terminal_height := 24
        spawn_cooldown := 400 + 0 % 200 } ∧
    ((0 : ℚ) ≤ ((5 % (24 / 4 : Nat) : Nat) : ℚ) ∧
      ((5 % (24 / 4 : Nat) : Nat) : ℚ) < ((24 / 4 : Nat) : ℚ)) ∧
    ((3/10 : ℚ) ≤ 3/10 + 0 * (2/10) ∧ (3/10 : ℚ) + 0 * (2/10) < 1/2) ∧
    (400 ≤ 400 + 0 % 200 ∧ 400 + 0 % 200 ≤ 599) :=
  airplane_spawn_one (AirplaneSystem.new 80 24) 80 24 0 5 0 0
    rfl (by norm_num) (by norm_num) le_rfl (by norm_num)

/-- C10: calling update with terminal_height below 4 while the cooldown is
zero and the roll is below the threshold reaches the remainder-by-zero in
spawn_plane and aborts, embedded as the none result. -/
theorem airplane_spawn_height_lt4_aborts (s : AirplaneSystem)
    (w h : Nat) (rf1 : ℚ) (ruY ruCd : Nat) (rf2 : ℚ)
    (hcd : s.spawn_cooldown = 0) (hr : rf1 < 3/1000) (hh : h < 4) :
    s.update w h rf1 ruY ruCd rf2 = none := by
  have hdiv : h / 4 = 0 := Nat.div_eq_of_lt hh
  simp [AirplaneSystem.update, AirplaneSystem.spawn_plane, hcd, hdiv, hr]

/-- C10 witness: a 3-row terminal aborts the spawning update. -/
theorem airplane_spawn_height_lt4_aborts_witness :
    (AirplaneSystem.new 80 3).update 80 3 0 0 0 0 = none :=
  airplane_spawn_height_lt4_aborts (AirplaneSystem.new 80 3) 80 3 0 0 0 0
    rfl (by norm_num) (by norm_num)

/-- C4: any two cells Ground::render emits at the same screen coordinate
(in particular across two independent calls with the same arguments, which
produce the same trace) carry the same character and color: the texture is
a pure function of the coordinate. -/
theorem ground_cell_deterministic (width height y_start path_center : Nat)
    (p q : (Nat × Nat) × Char × GColor)
    (hp : p ∈ Ground.renderOps width height y_start path_center)
    (hq : q ∈ Ground.renderOps width height y_start path_center)
    (hxy : p.1 = q.1) : p.2 = q.2 := by
  simp only [Ground.renderOps, List.mem_flatMap, List.mem_map,
    List.mem_range] at hp hq
  obtain ⟨y1, hy1, x1, hx1, rfl⟩ := hp
  obtain ⟨y2, hy2, x2, hx2, rfl⟩ := hq
  simp only [Prod.mk.injEq] at hxy
  obtain ⟨hx, hy⟩ := hxy
  have hyeq : y1 = y2 := by omega
  subst hx
  subst hyeq
  rfl

/-- C4 witness: a concrete cell of a concrete trace. -/
theorem ground_cell_deterministic_witness :
    (((0, 0), groundCell 2 0 0) ∈ Ground.renderOps 3 2 0 2) ∧
    (((0, 0), groundCell 2 0 0) : (Nat × Nat) × Char × GColor).2 =
      (((0, 0), groundCell 2 0 0) : (Nat × Nat) × Char × GColor).2 :=
  ⟨by decide, ground_cell_deterministic 3 2 0 2
    ((0, 0), groundCell 2 0 0) ((0, 0), groundCell 2 0 0)
    (by decide) (by decide) rfl⟩

/-- C5 counterexample: with path center 10 on a 40-wide strip, rows 0 and 1
both render 5 path cells, so the rendered width does not grow by exactly 1
from each row to the next. -/
theorem ground_path_width_counterexample :
    pathCellCount 10 40 0 = 5 ∧ pathCellCount 10 40 1 = 5 ∧
    ¬ pathCellCount 10 40 1 = pathCellCount 10 40 0 + 1 := by decide

lemma pathCellCount_eq (path_center width y : Nat)
    (hw : pathEnd path_center y < width) :
    pathCellCount path_center width y =
      pathEnd path_center y + 1 - pathStart path_center y := by
  have hset : (Finset.range width).filter
      (fun x => isPath path_center x y = true) =
      Finset.Icc (pathStart path_center y) (pathEnd path_center y) := by
    ext x
    simp only [isPath, Finset.mem_filter, Finset.mem_range, Finset.mem_Icc,
      Bool.and_eq_true, decide_eq_true_eq]
    omega
  rw [pathCellCount, hset, Nat.card_Icc]

/-- C5 (amended): the path row is the interval of columns centered on
path_center with nominal width 4 + y; its rendered span is
2 * ((4 + y) / 2) + 1 cells, unchanged from an even row to the next and
2 columns wider from an odd row to the next. -/
theorem ground_path_width_amended (path_center width y : Nat)
    (hc : (5 + y) / 2 ≤ path_center)
    (hw : path_center + (5 + y) / 2 < width) :
    pathStart path_center y = path_center - (4 + y) / 2 ∧
    pathEnd path_center y = path_center + (4 + y) / 2 ∧
    path_center - pathStart path_center y =
      pathEnd path_center y - path_center ∧
    pathCellCount path_center width y = 2 * ((4 + y) / 2) + 1 ∧
    pathCellCount path_center width (y + 1) =
      pathCellCount path_center width y + (if y % 2 = 1 then 2 else 0) := by
  have h1 : pathEnd path_center y < width := by
    unfold pathEnd
    omega
  have h2 : pathEnd path_center (y + 1) < width := by
    unfold pathEnd
    omega
  have c1 : pathCellCount path_center width y = 2 * ((4 + y) / 2) + 1 := by
    rw [pathCellCount_eq path_center width y h1]
    unfold pathStart pathEnd
    omega
  have c2 : pathCellCount path_center width (y + 1) =
      2 * ((5 + y) / 2) + 1 := by
    rw [pathCellCount_eq path_center width (y + 1) h2]
    unfold pathStart pathEnd
    omega
  refine ⟨rfl, rfl, ?_, c1, ?_⟩
  · unfold pathStart pathEnd
    omega
  · rw [c1, c2]
    by_cases hodd : y % 2 = 1 <;> simp [hodd] <;> omega

/-- C5 witness: concrete rows around an odd row index. -/
theorem ground_path_width_amended_witness :
    ((5 + 1) / 2 ≤ 10 ∧ 10 + (5 + 1) / 2 < 40) ∧
    (pathStart 10 1 = 10 - (4 + 1) / 2 ∧
     pathEnd 10 1 = 10 + (4 + 1) / 2 ∧
     10 - pathStart 10 1 = pathEnd 10 1 - 10 ∧
     pathCellCount 10 40 1 = 2 * ((4 + 1) / 2) + 1 ∧
     pathCellCount 10 40 (1 + 1) =
       pathCellCount 10 40 1 + (if 1 % 2 = 1 then 2 else 0)) :=
  ⟨by decide, ground_path_width_amended 10 40 1 (by decide) (by decide)⟩
